import Mathlib

/-
Verification of the structured-extraction core of the post-call-intelligence
repository.  The definitions below are a shallow embedding of the analysis
route module (the fallback-bearing variant): the JSON schema literal
customerServiceSchema, the lazily initialized client configuration
(initializeOpenAI / ensureOpenAIClient), the core getAIAnalysis function with
its legacy/alternate parameter profiles, and the POST /analyze route handler.
Host-language builtins (the HTTP transport behind
openaiClient.chat.completions.create, and JSON.parse) are passed in as
explicit function parameters, so theorems quantify over their behavior.
-/

/-- Characters of the pattern form a prefix of the second list. -/
def charsPre : List Char → List Char → Bool
  | [], _ => true
  | _ :: _, [] => false
  | p :: ps, c :: cs => p == c && charsPre ps cs

/-- Pattern occurs as a contiguous run inside the list (JavaScript
String.includes over the character list). -/
def charsContains (pat : List Char) : List Char → Bool
  | [] => charsPre pat []
  | c :: cs => charsPre pat (c :: cs) || charsContains pat cs

/-- Embedding of JavaScript s.includes(pat). -/
def strContains (s pat : String) : Bool := charsContains pat.data s.data

/-- Embedding of JavaScript string truthiness for an optional environment
value: undefined and the empty string are falsy. -/
def jsTruthy : Option String → Bool
  | none => false
  | some s => !(s == "")

/-- Embedding of JavaScript template-literal stringification of a possibly
undefined value: undefined prints as the string undefined. -/
def jsToString : Option String → String
  | none => "undefined"
  | some s => s

/-- Embedding of .replace(/\/$/, ""): remove one trailing slash. -/
def stripTrailingSlash (s : String) : String :=
  String.mk (if s.data.getLast? = some '/' then s.data.dropLast else s.data)

/-- JSON value, the result type of JSON.parse. -/
inductive JsonValue where
  | null
  | jbool (b : Bool)
  | num (q : ℚ)
  | str (s : String)
  | arr (xs : List JsonValue)
  | obj (fields : List (String × JsonValue))

/-- JSON-schema fragment, covering exactly the constructs appearing in the
customerServiceSchema literal of the source. -/
inductive JSchema where
  | jstring (enumVals : Option (List String))
  | jnumber (minimum : Option ℚ) (maximum : Option ℚ)
  | jarray (items : JSchema)
  | jobject (properties : List (String × JSchema)) (required : List String)
      (additionalProperties : Bool)

/-- Transliteration of the keyInformation sub-schema (source lines 26-37):
five named string properties, all required, additionalProperties false. -/
def keyInformationSchema : JSchema :=
  JSchema.jobject
    [("orderNumber", JSchema.jstring none),
     ("customerEmail", JSchema.jstring none),
     ("productSKU", JSchema.jstring none),
     ("issueDate", JSchema.jstring none),
     ("customerPhone", JSchema.jstring none)]
    ["orderNumber", "customerEmail", "productSKU", "issueDate", "customerPhone"]
    false

/-- Transliteration of the customerServiceSchema literal (source lines 9-61). -/
def customerServiceSchema : JSchema :=
  JSchema.jobject
    [("sentiment", JSchema.jstring (some ["positive", "neutral", "negative", "frustrated"])),
     ("escalationRisk", JSchema.jstring (some ["low", "medium", "high"])),
     ("primaryIntent", JSchema.jstring none),
     ("keyInformation", keyInformationSchema),
     ("suggestedActions", JSchema.jarray (JSchema.jstring none)),
     ("commitments", JSchema.jarray (JSchema.jstring none)),
     ("confidenceScore", JSchema.jnumber (some 0) (some 1)),
     ("summary", JSchema.jstring none)]
    ["sentiment", "escalationRisk", "primaryIntent", "keyInformation",
     "suggestedActions", "commitments", "confidenceScore", "summary"]
    false

/-- Required list of an object schema. -/
def schemaRequired : JSchema → List String
  | JSchema.jobject _ req _ => req
  | _ => []

/-- AdditionalProperties flag of an object schema (true elsewhere, since a
non-object schema constrains no extra properties). -/
def schemaAdditional : JSchema → Bool
  | JSchema.jobject _ _ a => a
  | _ => true

/-- Property sub-schema of an object schema under a given name. -/
def schemaProp (s : JSchema) (n : String) : Option JSchema :=
  match s with
  | JSchema.jobject props _ _ => (props.find? (fun p => p.1 == n)).map (fun p => p.2)
  | _ => none

/-- Field lookup in a decoded JSON object. -/
def lookupField (fields : List (String × JsonValue)) (n : String) : Option JsonValue :=
  (fields.find? (fun f => f.1 == n)).map (fun f => f.2)

/-- Value is a JSON string. -/
def isJsonString : JsonValue → Bool
  | JsonValue.str _ => true
  | _ => false

/-- Value is a JSON array whose elements are all strings. -/
def isStringArray : JsonValue → Bool
  | JsonValue.arr xs => xs.all isJsonString
  | _ => false

/-- Required keyInformation sub-field names, from the schema literal. -/
def keyInformationFields : List String :=
  ["orderNumber", "customerEmail", "productSKU", "issueDate", "customerPhone"]

/-- Required top-level field names, from the schema literal. -/
def analysisRequiredFields : List String :=
  ["sentiment", "escalationRisk", "primaryIntent", "keyInformation",
   "suggestedActions", "commitments", "confidenceScore", "summary"]

/-- Value satisfies the keyInformation sub-schema: an object whose five named
sub-fields are all present strings and which has no other field. -/
def validKeyInformation : JsonValue → Bool
  | JsonValue.obj fields =>
      keyInformationFields.all (fun n =>
        match lookupField fields n with
        | some v => isJsonString v
        | none => false) &&
      fields.all (fun f => keyInformationFields.contains f.1)
  | _ => false

/-- Value is one of the four sentiment enum strings. -/
def validSentiment : JsonValue → Bool
  | JsonValue.str s => ["positive", "neutral", "negative", "frustrated"].contains s
  | _ => false

/-- Value is one of the three escalation-risk enum strings. -/
def validEscalationRisk : JsonValue → Bool
  | JsonValue.str s => ["low", "medium", "high"].contains s
  | _ => false

/-- Value is a number within the schema bounds 0 and 1. -/
def validConfidence : JsonValue → Bool
  | JsonValue.num q => decide (0 ≤ q) && decide (q ≤ 1)
  | _ => false

/-- Named field of the object is present and satisfies the given check. -/
def validField (fields : List (String × JsonValue)) (n : String)
    (check : JsonValue → Bool) : Bool :=
  match lookupField fields n with
  | some v => check v
  | none => false

/-- Value satisfies the closed customerServiceSchema: all eight required
top-level fields present with their declared types, no top-level field outside
the schema, and keyInformation exactly its five string sub-fields. -/
def validAnalysis : JsonValue → Bool
  | JsonValue.obj fields =>
      validField fields "sentiment" validSentiment &&
      validField fields "escalationRisk" validEscalationRisk &&
      validField fields "primaryIntent" isJsonString &&
      validField fields "keyInformation" validKeyInformation &&
      validField fields "suggestedActions" isStringArray &&
      validField fields "commitments" isStringArray &&
      validField fields "confidenceScore" validConfidence &&
      validField fields "summary" isJsonString &&
      fields.all (fun f => analysisRequiredFields.contains f.1)
  | _ => false

/-- Environment values read by the module: AZURE_OPENAI_ENDPOINT,
AZURE_OPENAI_KEY, AZURE_OPENAI_DEPLOYMENT; none models an unset variable. -/
structure Env where
  endpoint : Option String
  key : Option String
  deployment : Option String

/-- Configured client value built by the OpenAI constructor call in
initializeOpenAI: api key, base URL, default query api-version, and the
api-key default header. -/
structure OpenAIClient where
  apiKey : String
  baseURL : String
  apiVersion : String
  apiKeyHeader : String
deriving DecidableEq

/-- Client construction from the environment, as in the body of the if in
initializeOpenAI (source lines 68-76). -/
def mkClient (env : Env) : OpenAIClient :=
  ⟨jsToString env.key,
   stripTrailingSlash (jsToString env.endpoint) ++ "/openai/deployments/" ++
     jsToString env.deployment,
   "2024-08-01-preview",
   jsToString env.key⟩

/-- Embedding of initializeOpenAI (source lines 66-78): construct the client
only when it is still null and both AZURE_OPENAI_ENDPOINT and
AZURE_OPENAI_KEY are truthy.  The deployment value is not checked. -/
def initializeOpenAI (env : Env) (st : Option OpenAIClient) : Option OpenAIClient :=
  match st with
  | some c => some c
  | none =>
      if jsTruthy env.endpoint && jsTruthy env.key then some (mkClient env) else none

/-- Error value thrown in JavaScript: message plus the optional code, status
and response.status fields the module inspects; isTypeError marks a raw
TypeError raised by a property access on undefined. -/
structure JsError where
  message : String
  code : Option String
  status : Option Nat
  responseStatus : Option Nat
  isTypeError : Bool
deriving DecidableEq

/-- Plain new Error(msg). -/
def mkError (msg : String) : JsError := ⟨msg, none, none, none, false⟩

/-- Message of the configuration error thrown by ensureOpenAIClient. -/
def notConfiguredMessage : String :=
  "Azure OpenAI client not configured. Please set AZURE_OPENAI_ENDPOINT, AZURE_OPENAI_KEY and AZURE_OPENAI_DEPLOYMENT."

/-- Error thrown by ensureOpenAIClient, with code OPENAI_NOT_CONFIGURED. -/
def notConfiguredError : JsError :=
  ⟨notConfiguredMessage, some "OPENAI_NOT_CONFIGURED", none, none, false⟩

/-- Truncation error (source line 210). -/
def truncatedError : JsError :=
  mkError "Response was truncated due to token limit. The analysis may be incomplete."

/-- Missing-content error (source line 215). -/
def missingContentError : JsError :=
  mkError "Unexpected OpenAI response format: missing content"

/-- JSON-parse failure error (source line 222); a fixed message, carrying no
field derived from the parse failure. -/
def invalidJsonError : JsError :=
  mkError "Failed to parse AI response. Response was not valid JSON."

/-- Authentication error (source line 234). -/
def authFailedError : JsError :=
  mkError "Authentication failed. Check your API key."

/-- Deployment-not-found error (source line 232), embedding the deployment
environment value in the message. -/
def deploymentNotFoundError (env : Env) : JsError :=
  mkError ("Deployment \x27" ++ jsToString env.deployment ++
    "\x27 not found. Check your deployment name.")

/-- TypeError raised by response.choices[0] when choices is undefined. -/
def typeErrorChoicesUndefined : JsError :=
  ⟨"Cannot read properties of undefined (reading \x270\x27)", none, none, none, true⟩

/-- TypeError raised by .finish_reason when choices[0] is undefined. -/
def typeErrorChoiceZeroUndefined : JsError :=
  ⟨"Cannot read properties of undefined (reading \x27finish_reason\x27)",
   none, none, none, true⟩

/-- Chat message of the request body. -/
structure ChatMessage where
  role : String
  content : String
deriving DecidableEq

/-- Completion request parameters assembled by getAIAnalysis; optional fields
model the presence or absence of the corresponding JavaScript object keys. -/
structure RequestParams where
  model : Option String
  messages : List ChatMessage
  responseFormatType : String
  schemaName : String
  strict : Bool
  schema : JSchema
  temperature : Option ℚ
  max_tokens : Option Nat
  max_completion_tokens : Option Nat

/-- System message content (source lines 168-169). -/
def systemContent : String :=
  "You are a customer service analysis expert. Extract accurate information from call transcripts to populate CRM systems. Follow the schema exactly."

/-- User prompt built around the transcript (source lines 151-162). -/
def analysisPrompt (transcription : String) : String :=
  "Analyze this customer service call transcript and extract structured information for our CRM system.\n\nTRANSCRIPT:\n" ++
  transcription ++
  "\n\nFocus on:\n- Customer sentiment and escalation risk\n- Key information that should be recorded\n- Specific commitments made to the customer\n- Recommended next actions\n\nBe precise and only extract information that\x27s clearly stated in the conversation."

/-- Embedding of baseParams (source lines 164-184): model, messages and the
strict json_schema response-format directive; no sampling or length field. -/
def baseParams (env : Env) (transcription : String) : RequestParams :=
  ⟨env.deployment,
   [⟨"system", systemContent⟩, ⟨"user", analysisPrompt transcription⟩],
   "json_schema", "customer_service_analysis", true, customerServiceSchema,
   none, none, none⟩

/-- Legacy (GPT-4 style) parameter profile: baseParams spread plus
temperature 0.1 and max_tokens 1000 (source lines 190-194). -/
def legacyParams (env : Env) (transcription : String) : RequestParams :=
  { baseParams env transcription with
      temperature := some (mkRat 1 10), max_tokens := some 1000 }

/-- Alternate (GPT-5 style) parameter profile: baseParams spread plus
max_completion_tokens 2000, temperature omitted (source lines 199-202). -/
def fallbackParams (env : Env) (transcription : String) : RequestParams :=
  { baseParams env transcription with max_completion_tokens := some 2000 }

/-- Message part of a completion choice; content may be absent. -/
structure ChatMessageOut where
  content : Option String
deriving DecidableEq

/-- One completion choice: finish_reason and message may each be absent. -/
structure ChatChoice where
  finish_reason : Option String
  message : Option ChatMessageOut
deriving DecidableEq

/-- Completion response; choices as a whole may be absent (undefined). -/
structure ChatResponse where
  choices : Option (List ChatChoice)
deriving DecidableEq

/-- Condition of the compatibility fallback (source lines 196-197):
gpt4Error.status === 400 and the message includes max_tokens or includes
temperature. -/
def triggersFallback (e : JsError) : Bool :=
  (e.status == some 400) &&
  (strContains e.message "max_tokens" || strContains e.message "temperature")

/-- Embedding of error?.response?.status || error?.status (source line 230),
with JavaScript falsiness of 0. -/
def statusOf (e : JsError) : Option Nat :=
  match e.responseStatus with
  | some s => if s == 0 then e.status else some s
  | none => e.status

/-- Embedding of the outer catch block of getAIAnalysis (source lines
225-238): pass OPENAI_NOT_CONFIGURED through, map 404 and 401, rethrow every
other error unchanged. -/
def classifyError (env : Env) (e : JsError) : JsError :=
  if e.code == some "OPENAI_NOT_CONFIGURED" then e
  else if statusOf e == some 404 then deploymentNotFoundError env
  else if statusOf e == some 401 then authFailedError
  else e

/-- Embedding of the inner try/catch issuing the completion calls (source
lines 188-206): one legacy-profile call, and exactly when that call fails
with the fallback condition, one alternate-profile call whose outcome
replaces the first.  Also returns the list of issued requests in order. -/
def attemptRequests (env : Env)
    (transport : RequestParams → Except JsError ChatResponse)
    (transcription : String) :
    Except JsError ChatResponse × List RequestParams :=
  match transport (legacyParams env transcription) with
  | Except.ok r => (Except.ok r, [legacyParams env transcription])
  | Except.error gpt4Error =>
      if triggersFallback gpt4Error then
        (transport (fallbackParams env transcription),
         [legacyParams env transcription, fallbackParams env transcription])
      else
        (Except.error gpt4Error, [legacyParams env transcription])

/-- Embedding of the response validation and parse steps (source lines
208-223).  The unguarded response.choices[0].finish_reason access raises a
raw TypeError when choices is absent or empty; after the truncation check the
optionally chained content read and the falsiness test guard the parse. -/
def processResponse (jsonParse : String → Except String JsonValue)
    (r : ChatResponse) : Except JsError JsonValue :=
  match r.choices with
  | none => Except.error typeErrorChoicesUndefined
  | some [] => Except.error typeErrorChoiceZeroUndefined
  | some (c :: _) =>
      if c.finish_reason = some "length" then Except.error truncatedError
      else
        match Option.bind c.message (fun m => m.content) with
        | none => Except.error missingContentError
        | some s =>
            if s == "" then Except.error missingContentError
            else
              match jsonParse s with
              | Except.ok j => Except.ok j
              | Except.error _ => Except.error invalidJsonError

/-- Outcome of one served attempt, as seen from the outer try of
getAIAnalysis: transport errors and validation errors both flow through the
outer catch and its classification. -/
def finishAttempt (env : Env) (jsonParse : String → Except String JsonValue) :
    Except JsError ChatResponse → Except JsError JsonValue
  | Except.error e => Except.error (classifyError env e)
  | Except.ok r =>
      match processResponse jsonParse r with
      | Except.ok j => Except.ok j
      | Except.error e => Except.error (classifyError env e)

/-- Embedding of getAIAnalysis (source lines 148-239).  The transport stands
for openaiClient.chat.completions.create and jsonParse for JSON.parse.
Returns the result, the client state after the call, and the list of
outbound requests issued. -/
def getAIAnalysis (env : Env) (st : Option OpenAIClient)
    (transport : RequestParams → Except JsError ChatResponse)
    (jsonParse : String → Except String JsonValue)
    (transcription : String) :
    Except JsError JsonValue × Option OpenAIClient × List RequestParams :=
  match initializeOpenAI env st with
  | none => (Except.error notConfiguredError, none, [])
  | some c =>
      let out := attemptRequests env transport transcription
      (finishAttempt env jsonParse out.1, some c, out.2)

/-- HTTP reply produced by the /analyze route handler; timestamp and the
schema echo of the success body are not modelled (wall-clock time). -/
structure HttpReply where
  status : Nat
  success : Bool
  error : Option String
  analysis : Option JsonValue

/-- Embedding of router.post /analyze (source lines 91-112): initialize,
delegate to getAIAnalysis, answer 200 with the analysis on success and 500
with success false and the prefixed error message on any failure. -/
def postAnalyze (env : Env) (st : Option OpenAIClient)
    (transport : RequestParams → Except JsError ChatResponse)
    (jsonParse : String → Except String JsonValue)
    (transcription : String) :
    HttpReply × Option OpenAIClient × List RequestParams :=
  let st1 := initializeOpenAI env st
  let out := getAIAnalysis env st1 transport jsonParse transcription
  match out.1 with
  | Except.ok j => (⟨200, true, none, some j⟩, out.2.1, out.2.2)
  | Except.error e =>
      (⟨500, false, some ("Failed to analyze conversation: " ++ e.message), none⟩,
       out.2.1, out.2.2)

/-- Test environment with all three configuration values set. -/
def envW : Env :=
  ⟨some "https://example.openai.azure.com/", some "key-123", some "gpt-4o"⟩

/-- Test environment with no configuration value set. -/
def envUnset : Env := ⟨none, none, none⟩

/-- Test environment with endpoint and key set but deployment unset. -/
def envMissingDeployment : Env :=
  ⟨some "https://example.openai.azure.com/", some "key-123", none⟩

/-- Sample completion content used by the doubles. -/
def goodContent : String := "\x7b\"sentiment\": \"negative\"\x7d"

/-- Decoded analysis value satisfying the full schema. -/
def validAnalysisJson : JsonValue :=
  JsonValue.obj
    [("sentiment", JsonValue.str "negative"),
     ("escalationRisk", JsonValue.str "medium"),
     ("primaryIntent", JsonValue.str "Order not delivered"),
     ("keyInformation", JsonValue.obj
        [("orderNumber", JsonValue.str "12345"),
         ("customerEmail", JsonValue.str "jo@example.com"),
         ("productSKU", JsonValue.str ""),
         ("issueDate", JsonValue.str ""),
         ("customerPhone", JsonValue.str "")]),
     ("suggestedActions", JsonValue.arr [JsonValue.str "Ship replacement"]),
     ("commitments", JsonValue.arr []),
     ("confidenceScore", JsonValue.num (mkRat 9 10)),
     ("summary", JsonValue.str "Customer reports order 12345 missing")]

/-- JSON.parse double for the tests. -/
def parseStub : String → Except String JsonValue := fun s =>
  if s == "\x7b\x7d" then Except.ok (JsonValue.obj [])
  else if s == goodContent then Except.ok validAnalysisJson
  else Except.error "Unexpected token"

/-- Second JSON.parse double producing a different decode diagnostic. -/
def parseStubAlt : String → Except String JsonValue := fun _ =>
  Except.error "SyntaxError: Unexpected end of JSON input"

/-- Completion response carrying the given content with stop reason stop. -/
def respOk (content : String) : ChatResponse :=
  ⟨some [⟨some "stop", some ⟨some content⟩⟩]⟩

/-- Length-truncated completion response whose content is valid JSON. -/
def respTruncated : ChatResponse := ⟨some [⟨some "length", some ⟨some "\x7b\x7d"⟩⟩]⟩

/-- Client error answering the legacy profile on a newer model generation. -/
def err400 : JsError :=
  ⟨"Unsupported parameter: max_tokens is not supported with this model.",
   none, some 400, none, false⟩

/-- Authentication error double. -/
def err401 : JsError :=
  ⟨"Access denied due to invalid subscription key", none, some 401, none, false⟩

/-- Unknown-deployment error double. -/
def err404 : JsError :=
  ⟨"The API deployment for this resource does not exist.", none, some 404, none, false⟩

/-- Plain network failure double with no HTTP status. -/
def errNetwork : JsError :=
  ⟨"getaddrinfo ENOTFOUND example.openai.azure.com", none, none, none, false⟩

/-- Transport double rejecting the legacy profile with err400 and accepting
the alternate profile. -/
def transportFallbackOk : RequestParams → Except JsError ChatResponse := fun p =>
  match p.max_tokens with
  | some _ => Except.error err400
  | none => Except.ok (respOk goodContent)

/-- Transport double accepting every request. -/
def transportGood : RequestParams → Except JsError ChatResponse := fun _ =>
  Except.ok (respOk goodContent)

/-- Transport double rejecting every request with 401. -/
def transport401 : RequestParams → Except JsError ChatResponse := fun _ =>
  Except.error err401

/-- Transport double rejecting every request with 404. -/
def transport404 : RequestParams → Except JsError ChatResponse := fun _ =>
  Except.error err404

/-- Transport double answering with a length-truncated response. -/
def transportTrunc : RequestParams → Except JsError ChatResponse := fun _ =>
  Except.ok respTruncated

/-- Transport double answering with content that decodes to an empty object. -/
def transportEmptyJson : RequestParams → Except JsError ChatResponse := fun _ =>
  Except.ok (respOk "\x7b\x7d")

/-- Transport double answering with undecodable content. -/
def transportBadJson : RequestParams → Except JsError ChatResponse := fun _ =>
  Except.ok (respOk "not json")

/-- Transport double answering with a response lacking the choices array. -/
def transportNoChoices : RequestParams → Except JsError ChatResponse := fun _ =>
  Except.ok ⟨none⟩

/-- Transport double failing with a plain network error. -/
def transportNetworkErr : RequestParams → Except JsError ChatResponse := fun _ =>
  Except.error errNetwork

theorem analysis_eq_of_init (env : Env) (st : Option OpenAIClient)
    (transport : RequestParams → Except JsError ChatResponse)
    (jsonParse : String → Except String JsonValue) (t : String)
    (c : OpenAIClient) (hc : initializeOpenAI env st = some c) :
    getAIAnalysis env st transport jsonParse t =
      (finishAttempt env jsonParse (attemptRequests env transport t).1, some c,
       (attemptRequests env transport t).2) := by
  unfold getAIAnalysis
  rw [hc]

theorem attempt_ok (env : Env)
    (transport : RequestParams → Except JsError ChatResponse) (t : String)
    (r : ChatResponse) (h : transport (legacyParams env t) = Except.ok r) :
    attemptRequests env transport t = (Except.ok r, [legacyParams env t]) := by
  unfold attemptRequests
  rw [h]

theorem attempt_error_no_trigger (env : Env)
    (transport : RequestParams → Except JsError ChatResponse) (t : String)
    (e : JsError) (h : transport (legacyParams env t) = Except.error e)
    (htr : triggersFallback e = false) :
    attemptRequests env transport t = (Except.error e, [legacyParams env t]) := by
  unfold attemptRequests
  rw [h]
  simp [htr]

theorem attempt_error_trigger (env : Env)
    (transport : RequestParams → Except JsError ChatResponse) (t : String)
    (e : JsError) (h : transport (legacyParams env t) = Except.error e)
    (htr : triggersFallback e = true) :
    attemptRequests env transport t =
      (transport (fallbackParams env t), [legacyParams env t, fallbackParams env t]) := by
  unfold attemptRequests
  rw [h]
  simp [htr]

theorem classify_mkError (env : Env) (msg : String) :
    classifyError env (mkError msg) = mkError msg := rfl

theorem finish_error (env : Env) (jsonParse : String → Except String JsonValue)
    (e : JsError) :
    finishAttempt env jsonParse (Except.error e) = Except.error (classifyError env e) := rfl

/-- C1: every analyze call issues the primary request with sampling
temperature 0.1 and max_tokens 1000; a second request is issued if and only
if the primary attempt fails with a status-400 error whose message mentions
max_tokens or temperature, in which case exactly one retry with the alternate
profile (temperature omitted, max_completion_tokens 2000) follows the legacy
attempt and the alternate attempt's outcome becomes the call's result. -/
theorem C1_fallback_profile_iff (env : Env) (st : Option OpenAIClient)
    (transport : RequestParams → Except JsError ChatResponse)
    (jsonParse : String → Except String JsonValue) (t : String)
    (hcfg : (initializeOpenAI env st).isSome = true) :
    (legacyParams env t).temperature = some (mkRat 1 10) ∧
    mkRat 1 10 = (0.1 : ℚ) ∧
    (legacyParams env t).max_tokens = some 1000 ∧
    ((getAIAnalysis env st transport jsonParse t).2.2 = [legacyParams env t] ∨
     (getAIAnalysis env st transport jsonParse t).2.2 =
       [legacyParams env t, fallbackParams env t]) ∧
    ((∃ e, transport (legacyParams env t) = Except.error e ∧ triggersFallback e = true) ↔
      (getAIAnalysis env st transport jsonParse t).2.2 =
        [legacyParams env t, fallbackParams env t]) ∧
    ((∃ e, transport (legacyParams env t) = Except.error e ∧ triggersFallback e = true) →
      (fallbackParams env t).temperature = none ∧
      (fallbackParams env t).max_tokens = none ∧
      (fallbackParams env t).max_completion_tokens = some 2000 ∧
      (getAIAnalysis env st transport jsonParse t).1 =
        finishAttempt env jsonParse (transport (fallbackParams env t))) := by
  obtain ⟨c0, hc0⟩ := Option.isSome_iff_exists.mp hcfg
  have heq := analysis_eq_of_init env st transport jsonParse t c0 hc0
  refine ⟨rfl, by norm_num, rfl, ?_, ?_, ?_⟩
  · rcases hT : transport (legacyParams env t) with e0 | r
    · by_cases htr : triggersFallback e0 = true
      · right
        rw [heq, attempt_error_trigger env transport t e0 hT htr]
      · left
        rw [heq,
          attempt_error_no_trigger env transport t e0 hT (eq_false_of_ne_true htr)]
    · left
      rw [heq, attempt_ok env transport t r hT]
  · constructor
    · rintro ⟨e, he, htre⟩
      rw [heq, attempt_error_trigger env transport t e he htre]
    · intro h2
      rcases hT : transport (legacyParams env t) with e0 | r
      · by_cases htr : triggersFallback e0 = true
        · exact ⟨e0, rfl, htr⟩
        · rw [heq,
            attempt_error_no_trigger env transport t e0 hT (eq_false_of_ne_true htr)]
            at h2
          simp at h2
      · rw [heq, attempt_ok env transport t r hT] at h2
        simp at h2
  · rintro ⟨e, he, htre⟩
    refine ⟨rfl, rfl, rfl, ?_⟩
    rw [heq, attempt_error_trigger env transport t e he htre]

/-- C1 witness: with all three configuration values set and a transport
double rejecting the legacy profile with a 400 max_tokens error while
accepting the alternate profile, both profiles are issued in order and the
call succeeds with the alternate attempt's decoded result. -/
theorem C1_fallback_profile_iff_witness :
    (initializeOpenAI envW none).isSome = true ∧
    (getAIAnalysis envW none transportFallbackOk parseStub "call").2.2 =
      [legacyParams envW "call", fallbackParams envW "call"] ∧
    (getAIAnalysis envW none transportFallbackOk parseStub "call").1 =
      Except.ok validAnalysisJson := by
  refine ⟨rfl, ?_, rfl⟩
  exact (C1_fallback_profile_iff envW none transportFallbackOk parseStub "call"
    rfl).2.2.2.2.1.mp ⟨err400, rfl, rfl⟩

/-- C2: whenever the completion response surviving the attempt phase has stop
reason length, analyze fails with the truncation error, for every JSON.parse
behavior (so the content is never parsed or returned, even when it is valid
JSON), regardless of which parameter profile produced the response. -/
theorem C2_truncation_precedence (env : Env) (st : Option OpenAIClient)
    (transport : RequestParams → Except JsError ChatResponse)
    (jsonParse : String → Except String JsonValue) (t : String)
    (r : ChatResponse) (c : ChatChoice) (rest : List ChatChoice)
    (hcfg : (initializeOpenAI env st).isSome = true)
    (hr : (attemptRequests env transport t).1 = Except.ok r)
    (hch : r.choices = some (c :: rest))
    (hfin : c.finish_reason = some "length") :
    (getAIAnalysis env st transport jsonParse t).1 = Except.error truncatedError := by
  obtain ⟨c0, hc0⟩ := Option.isSome_iff_exists.mp hcfg
  rw [analysis_eq_of_init env st transport jsonParse t c0 hc0]
  show finishAttempt env jsonParse (attemptRequests env transport t).1 =
    Except.error truncatedError
  rw [hr]
  simp [finishAttempt, processResponse, hch, hfin, truncatedError, classify_mkError]

/-- C2 witness: a response flagged as length-truncated whose content decodes
as valid JSON under the supplied parser still fails with the truncation
error. -/
theorem C2_truncation_precedence_witness :
    (initializeOpenAI envW none).isSome = true ∧
    (attemptRequests envW transportTrunc "call").1 = Except.ok respTruncated ∧
    respTruncated.choices = some [⟨some "length", some ⟨some "\x7b\x7d"⟩⟩] ∧
    parseStub "\x7b\x7d" = Except.ok (JsonValue.obj []) ∧
    (getAIAnalysis envW none transportTrunc parseStub "call").1 =
      Except.error truncatedError := by
  refine ⟨rfl, rfl, rfl, rfl, ?_⟩
  exact C2_truncation_precedence envW none transportTrunc parseStub "call"
    respTruncated ⟨some "length", some ⟨some "\x7b\x7d"⟩⟩ [] rfl rfl rfl rfl

/-- C3: with AZURE_OPENAI_ENDPOINT and AZURE_OPENAI_KEY set but
AZURE_OPENAI_DEPLOYMENT unset, initializeOpenAI still constructs the client
(its guard checks only endpoint and key), the base URL embeds the string
undefined, and getAIAnalysis issues an outbound request whose model field is
absent instead of failing fast with the configuration error. -/
theorem C3_deployment_unset_attempts_network :
    initializeOpenAI envMissingDeployment none =
      some ⟨"key-123",
        "https://example.openai.azure.com/openai/deployments/undefined",
        "2024-08-01-preview", "key-123"⟩ ∧
    (getAIAnalysis envMissingDeployment none transportNetworkErr parseStub "call").2.2 =
      [legacyParams envMissingDeployment "call"] ∧
    (legacyParams envMissingDeployment "call").model = none ∧
    (getAIAnalysis envMissingDeployment none transportNetworkErr parseStub "call").1 =
      Except.error errNetwork ∧
    errNetwork ≠ notConfiguredError :=
  ⟨rfl, rfl, rfl, rfl, by decide⟩

/-- C4 counterexample: a provider response whose content decodes to the empty
JSON object is returned by analyze unchanged even though it satisfies none of
the schema's requirements, so a successfully returned Analysis need not
satisfy the closed schema. -/
theorem C4_schema_closure_counterexample :
    (getAIAnalysis envW none transportEmptyJson parseStub "call").1 =
      Except.ok (JsonValue.obj []) ∧
    validAnalysis (JsonValue.obj []) = false :=
  ⟨rfl, rfl⟩

/-- C4 amended: the schema directive sent with every request is closed (the
eight top-level fields required, additionalProperties false, keyInformation
exactly its five required sub-fields with additionalProperties false), and
every value analyze successfully returns is exactly a JSON.parse decode
output returned without post-decode validation, so it satisfies the closed
schema exactly when the provider's decoded content does. -/
theorem C4_schema_closure_amended (env : Env) (st : Option OpenAIClient)
    (transport : RequestParams → Except JsError ChatResponse)
    (jsonParse : String → Except String JsonValue) (t : String) (v : JsonValue)
    (hres : (getAIAnalysis env st transport jsonParse t).1 = Except.ok v) :
    (baseParams env t).schema = customerServiceSchema ∧
    (baseParams env t).strict = true ∧
    schemaRequired customerServiceSchema = analysisRequiredFields ∧
    schemaAdditional customerServiceSchema = false ∧
    (schemaProp customerServiceSchema "keyInformation").map schemaRequired =
      some keyInformationFields ∧
    (schemaProp customerServiceSchema "keyInformation").map schemaAdditional =
      some false ∧
    ∃ s, jsonParse s = Except.ok v := by
  refine ⟨rfl, rfl, rfl, rfl, rfl, rfl, ?_⟩
  rcases hc0 : initializeOpenAI env st with _ | c0
  · unfold getAIAnalysis at hres
    rw [hc0] at hres
    simp at hres
  · rw [analysis_eq_of_init env st transport jsonParse t c0 hc0] at hres
    have hres2 : finishAttempt env jsonParse (attemptRequests env transport t).1 =
        Except.ok v := hres
    rcases ha : (attemptRequests env transport t).1 with e | r
    · rw [ha, finish_error] at hres2
      simp at hres2
    · rw [ha] at hres2
      rcases hp : processResponse jsonParse r with e | j
      · have hfe : finishAttempt env jsonParse (Except.ok r) =
            Except.error (classifyError env e) := by
          simp [finishAttempt, hp]
        rw [hfe] at hres2
        simp at hres2
      · have hfo : finishAttempt env jsonParse (Except.ok r) = Except.ok j := by
          simp [finishAttempt, hp]
        rw [hfo] at hres2
        have hjv : j = v := by simpa using hres2
        subst hjv
        rcases r with ⟨choices⟩
        rcases choices with _ | cs
        · simp [processResponse] at hp
        · rcases cs with _ | ⟨ch, rest⟩
          · simp [processResponse] at hp
          · by_cases hfin : ch.finish_reason = some "length"
            · simp [processResponse, hfin] at hp
            · rcases hcont : Option.bind ch.message (fun m => m.content) with _ | s
              · simp [processResponse, hfin, hcont] at hp
              · by_cases hne : (s == "") = true
                · simp [processResponse, hfin, hcont, hne] at hp
                · rcases hjp : jsonParse s with msg | j0
                  · simp [processResponse, hfin, hcont, hne, hjp] at hp
                  · simp [processResponse, hfin, hcont, hne, hjp] at hp
                    subst hp
                    exact ⟨s, hjp⟩

/-- C4 amended witness: a run whose provider content decodes to a fully
schema-conforming analysis returns that value, which the amended theorem
traces back to the decode output. -/
theorem C4_schema_closure_amended_witness :
    (getAIAnalysis envW none transportGood parseStub "call").1 =
      Except.ok validAnalysisJson ∧
    validAnalysis validAnalysisJson = true ∧
    ((baseParams envW "call").schema = customerServiceSchema ∧
     (baseParams envW "call").strict = true ∧
     schemaRequired customerServiceSchema = analysisRequiredFields ∧
     schemaAdditional customerServiceSchema = false ∧
     (schemaProp customerServiceSchema "keyInformation").map schemaRequired =
       some keyInformationFields ∧
     (schemaProp customerServiceSchema "keyInformation").map schemaAdditional =
       some false ∧
     ∃ s, parseStub s = Except.ok validAnalysisJson) := by
  refine ⟨rfl, rfl, ?_⟩
  exact C4_schema_closure_amended envW none transportGood parseStub "call"
    validAnalysisJson rfl

/-- C5: when the primary attempt fails with any error not satisfying the
fallback condition, exactly one outbound call is made and the classified
error is surfaced; a 401 status specifically yields the authentication
failure. -/
theorem C5_single_attempt_on_unrelated_error (env : Env) (st : Option OpenAIClient)
    (transport : RequestParams → Except JsError ChatResponse)
    (jsonParse : String → Except String JsonValue) (t : String) (e : JsError)
    (hcfg : (initializeOpenAI env st).isSome = true)
    (hT : transport (legacyParams env t) = Except.error e)
    (htr : triggersFallback e = false) :
    (getAIAnalysis env st transport jsonParse t).2.2 = [legacyParams env t] ∧
    (getAIAnalysis env st transport jsonParse t).1 =
      Except.error (classifyError env e) ∧
    (statusOf e = some 401 → e.code ≠ some "OPENAI_NOT_CONFIGURED" →
      (getAIAnalysis env st transport jsonParse t).1 = Except.error authFailedError) := by
  obtain ⟨c0, hc0⟩ := Option.isSome_iff_exists.mp hcfg
  have heq := analysis_eq_of_init env st transport jsonParse t c0 hc0
  have ha := attempt_error_no_trigger env transport t e hT htr
  refine ⟨by rw [heq, ha], by rw [heq, ha]; rfl, ?_⟩
  intro h401 hcode
  rw [heq, ha]
  show Except.error (classifyError env e) = Except.error authFailedError
  have hb1 : (e.code == some "OPENAI_NOT_CONFIGURED") = false :=
    beq_eq_false_iff_ne.mpr hcode
  have hb2 : (statusOf e == some 404) = false := by rw [h401]; rfl
  have hb3 : (statusOf e == some 401) = true := by rw [h401]; rfl
  simp [classifyError, hb1, hb2, hb3]

/-- C5 witness: a transport double rejecting the legacy profile with a 401
leads to exactly one outbound call and the authentication failure, with no
retry. -/
theorem C5_single_attempt_witness :
    (initializeOpenAI envW none).isSome = true ∧
    transport401 (legacyParams envW "call") = Except.error err401 ∧
    triggersFallback err401 = false ∧
    (getAIAnalysis envW none transport401 parseStub "call").2.2 =
      [legacyParams envW "call"] ∧
    (getAIAnalysis envW none transport401 parseStub "call").1 =
      Except.error authFailedError := by
  have h := C5_single_attempt_on_unrelated_error envW none transport401 parseStub
    "call" err401 rfl rfl rfl
  exact ⟨rfl, rfl, rfl, h.1, h.2.2 rfl (by decide)⟩

/-- C6: a transport-phase failure with status 404 is mapped to the
deployment-not-found error whose message embeds the configured deployment
identifier; status 401 is mapped to the authentication failure; every other
transport failure is rethrown unchanged.  The code field OPENAI_NOT_CONFIGURED
is a private marker set only by ensureOpenAIClient, never produced by the
transport, hence the hypothesis excluding it. -/
theorem C6_transport_error_mapping (env : Env) (st : Option OpenAIClient)
    (transport : RequestParams → Except JsError ChatResponse)
    (jsonParse : String → Except String JsonValue) (t : String) (e : JsError)
    (hcfg : (initializeOpenAI env st).isSome = true)
    (herr : (attemptRequests env transport t).1 = Except.error e)
    (hcode : e.code ≠ some "OPENAI_NOT_CONFIGURED") :
    (statusOf e = some 404 →
      (getAIAnalysis env st transport jsonParse t).1 =
        Except.error (deploymentNotFoundError env) ∧
      (deploymentNotFoundError env).message =
        "Deployment \x27" ++ jsToString env.deployment ++
          "\x27 not found. Check your deployment name.") ∧
    (statusOf e = some 401 →
      (getAIAnalysis env st transport jsonParse t).1 = Except.error authFailedError) ∧
    (statusOf e ≠ some 404 → statusOf e ≠ some 401 →
      (getAIAnalysis env st transport jsonParse t).1 = Except.error e) := by
  obtain ⟨c0, hc0⟩ := Option.isSome_iff_exists.mp hcfg
  have heq := analysis_eq_of_init env st transport jsonParse t c0 hc0
  have hb1 : (e.code == some "OPENAI_NOT_CONFIGURED") = false :=
    beq_eq_false_iff_ne.mpr hcode
  refine ⟨?_, ?_, ?_⟩
  · intro h404
    refine ⟨?_, rfl⟩
    rw [heq, herr]
    show Except.error (classifyError env e) = _
    have hb2 : (statusOf e == some 404) = true := by rw [h404]; rfl
    simp [classifyError, hb1, hb2]
  · intro h401
    rw [heq, herr]
    show Except.error (classifyError env e) = _
    have hb2 : (statusOf e == some 404) = false := by rw [h401]; rfl
    have hb3 : (statusOf e == some 401) = true := by rw [h401]; rfl
    simp [classifyError, hb1, hb2, hb3]
  · intro h404 h401
    rw [heq, herr]
    show Except.error (classifyError env e) = _
    have hb2 : (statusOf e == some 404) = false := beq_eq_false_iff_ne.mpr h404
    have hb3 : (statusOf e == some 401) = false := beq_eq_false_iff_ne.mpr h401
    simp [classifyError, hb1, hb2, hb3]

/-- C6 witness: a 404 transport failure surfaces the deployment-not-found
error with the configured deployment name in its message. -/
theorem C6_transport_error_mapping_witness :
    (initializeOpenAI envW none).isSome = true ∧
    (attemptRequests envW transport404 "call").1 = Except.error err404 ∧
    err404.code ≠ some "OPENAI_NOT_CONFIGURED" ∧
    statusOf err404 = some 404 ∧
    (getAIAnalysis envW none transport404 parseStub "call").1 =
      Except.error (deploymentNotFoundError envW) ∧
    (deploymentNotFoundError envW).message =
      "Deployment \x27gpt-4o\x27 not found. Check your deployment name." := by
  have h := C6_transport_error_mapping envW none transport404 parseStub "call"
    err404 rfl rfl (by decide)
  exact ⟨rfl, rfl, by decide, rfl, (h.1 rfl).1, rfl⟩

/-- C7 counterexample: two JSON.parse doubles failing with different decode
diagnostics lead to the same fixed invalid-JSON error value, whose message
contains neither diagnostic and whose remaining fields are all empty, so the
surfaced error does not carry the original decode error. -/
theorem C7_invalid_json_counterexample :
    (getAIAnalysis envW none transportBadJson parseStub "call").1 =
      Except.error invalidJsonError ∧
    (getAIAnalysis envW none transportBadJson parseStubAlt "call").1 =
      Except.error invalidJsonError ∧
    parseStub "not json" = Except.error "Unexpected token" ∧
    parseStubAlt "not json" =
      Except.error "SyntaxError: Unexpected end of JSON input" ∧
    invalidJsonError =
      ⟨"Failed to parse AI response. Response was not valid JSON.",
       none, none, none, false⟩ ∧
    strContains invalidJsonError.message "Unexpected token" = false ∧
    strContains invalidJsonError.message "SyntaxError" = false :=
  ⟨rfl, rfl, rfl, rfl, rfl, rfl, rfl⟩

/-- C7 amended: for every completion whose present, non-empty content fails
to decode as JSON, analyze fails with the invalid-JSON error bearing a fixed
message, whatever the decode diagnostic was; the decode error is not attached
to the surfaced error (one source variant only logs it to the console). -/
theorem C7_invalid_json_fixed_message (env : Env) (st : Option OpenAIClient)
    (transport : RequestParams → Except JsError ChatResponse)
    (jsonParse : String → Except String JsonValue) (t : String)
    (r : ChatResponse) (ch : ChatChoice) (rest : List ChatChoice)
    (s msg : String)
    (hcfg : (initializeOpenAI env st).isSome = true)
    (hr : (attemptRequests env transport t).1 = Except.ok r)
    (hch : r.choices = some (ch :: rest))
    (hfin : ch.finish_reason ≠ some "length")
    (hcont : Option.bind ch.message (fun m => m.content) = some s)
    (hne : (s == "") = false)
    (hjp : jsonParse s = Except.error msg) :
    (getAIAnalysis env st transport jsonParse t).1 = Except.error invalidJsonError := by
  obtain ⟨c0, hc0⟩ := Option.isSome_iff_exists.mp hcfg
  rw [analysis_eq_of_init env st transport jsonParse t c0 hc0]
  show finishAttempt env jsonParse (attemptRequests env transport t).1 =
    Except.error invalidJsonError
  rw [hr]
  rcases r with ⟨choices⟩
  have hch2 : choices = some (ch :: rest) := hch
  subst hch2
  simp [finishAttempt, processResponse, hfin, hcont, hne, hjp, invalidJsonError,
    classify_mkError]

/-- C7 amended witness: undecodable content yields exactly the fixed
invalid-JSON error. -/
theorem C7_invalid_json_fixed_message_witness :
    (initializeOpenAI envW none).isSome = true ∧
    (getAIAnalysis envW none transportBadJson parseStub "call").1 =
      Except.error invalidJsonError := by
  refine ⟨rfl, ?_⟩
  exact C7_invalid_json_fixed_message envW none transportBadJson parseStub "call"
    (respOk "not json") ⟨some "stop", some ⟨some "not json"⟩⟩ [] "not json"
    "Unexpected token" rfl rfl rfl (by decide) rfl (by decide) rfl

/-- C8: the client configuration is idempotent and thereafter immutable: a
constructed client is never replaced by a later initialization call,
re-running initialization is a no-op, and an analyze call's resulting client
state is exactly the one-time lazy initialization of its input state, so
repeated construction from identical environment values yields the same
configuration for every subsequent outbound call. -/
theorem C8_config_idempotent_immutable :
    (∀ (env : Env) (c : OpenAIClient), initializeOpenAI env (some c) = some c) ∧
    (∀ (env : Env) (st : Option OpenAIClient),
      initializeOpenAI env (initializeOpenAI env st) = initializeOpenAI env st) ∧
    (∀ (env : Env) (st : Option OpenAIClient)
      (transport : RequestParams → Except JsError ChatResponse)
      (jsonParse : String → Except String JsonValue) (t : String),
      (getAIAnalysis env st transport jsonParse t).2.1 = initializeOpenAI env st) := by
  refine ⟨fun env c => rfl, ?_, ?_⟩
  · intro env st
    cases st with
    | some c => rfl
    | none =>
        by_cases h : (jsTruthy env.endpoint && jsTruthy env.key) = true
        · simp [initializeOpenAI, h]
        · simp [initializeOpenAI, h]
  · intro env st transport jsonParse t
    unfold getAIAnalysis
    cases h : initializeOpenAI env st with
    | none => simp
    | some c => simp

/-- C9: every failing request to POST /api/analyze is answered with HTTP
status 500, success false, no analysis, and an error string prefixing the
failure's message with the fixed text, for every failure class including the
configuration error. -/
theorem C9_analyze_route_failure_shape (env : Env) (st : Option OpenAIClient)
    (transport : RequestParams → Except JsError ChatResponse)
    (jsonParse : String → Except String JsonValue) (t : String) (e : JsError)
    (he : (getAIAnalysis env (initializeOpenAI env st) transport jsonParse t).1 =
      Except.error e) :
    (postAnalyze env st transport jsonParse t).1.status = 500 ∧
    (postAnalyze env st transport jsonParse t).1.success = false ∧
    (postAnalyze env st transport jsonParse t).1.error =
      some ("Failed to analyze conversation: " ++ e.message) ∧
    (postAnalyze env st transport jsonParse t).1.analysis = none := by
  simp only [postAnalyze]
  rw [he]
  exact ⟨rfl, rfl, rfl, rfl⟩

/-- C9 witness: with no configuration value set, the route answers 500 with
success false and the prefixed configuration-error message. -/
theorem C9_analyze_route_failure_witness :
    (getAIAnalysis envUnset (initializeOpenAI envUnset none) transportGood
      parseStub "call").1 = Except.error notConfiguredError ∧
    (postAnalyze envUnset none transportGood parseStub "call").1.status = 500 ∧
    (postAnalyze envUnset none transportGood parseStub "call").1.success = false ∧
    (postAnalyze envUnset none transportGood parseStub "call").1.error =
      some ("Failed to analyze conversation: " ++ notConfiguredMessage) := by
  have h := C9_analyze_route_failure_shape envUnset none transportGood parseStub
    "call" notConfiguredError rfl
  exact ⟨rfl, h.1, h.2.1, h.2.2.1⟩

/-- C10: in the fallback-bearing variant the truncation check dereferences
choices[0].finish_reason unguarded, so a served response whose choices array
is absent or empty makes analyze surface a raw TypeError rather than the
missing-content classification; the missing-content error is reachable only
when choices[0] exists. -/
theorem C10_unguarded_choices_type_error (env : Env) (st : Option OpenAIClient)
    (transport : RequestParams → Except JsError ChatResponse)
    (jsonParse : String → Except String JsonValue) (t : String) (r : ChatResponse)
    (hcfg : (initializeOpenAI env st).isSome = true)
    (hr : (attemptRequests env transport t).1 = Except.ok r) :
    (r.choices = none →
      (getAIAnalysis env st transport jsonParse t).1 =
        Except.error typeErrorChoicesUndefined ∧
      typeErrorChoicesUndefined.isTypeError = true) ∧
    (r.choices = some [] →
      (getAIAnalysis env st transport jsonParse t).1 =
        Except.error typeErrorChoiceZeroUndefined ∧
      typeErrorChoiceZeroUndefined.isTypeError = true) ∧
    ((getAIAnalysis env st transport jsonParse t).1 =
        Except.error missingContentError →
      ∃ ch rest, r.choices = some (ch :: rest)) := by
  obtain ⟨c0, hc0⟩ := Option.isSome_iff_exists.mp hcfg
  have heq := analysis_eq_of_init env st transport jsonParse t c0 hc0
  have hval : (getAIAnalysis env st transport jsonParse t).1 =
      finishAttempt env jsonParse (Except.ok r) := by rw [heq, hr]
  refine ⟨?_, ?_, ?_⟩
  · intro hch
    refine ⟨?_, rfl⟩
    rw [hval]
    rcases r with ⟨choices⟩
    have h2 : choices = none := hch
    subst h2
    rfl
  · intro hch
    refine ⟨?_, rfl⟩
    rw [hval]
    rcases r with ⟨choices⟩
    have h2 : choices = some [] := hch
    subst h2
    rfl
  · intro hmc
    rw [hval] at hmc
    rcases r with ⟨choices⟩
    rcases choices with _ | cs
    · exfalso
      have hv : finishAttempt env jsonParse (Except.ok (⟨none⟩ : ChatResponse)) =
          Except.error typeErrorChoicesUndefined := rfl
      rw [hv] at hmc
      injection hmc with h3
      exact absurd h3 (by decide)
    · rcases cs with _ | ⟨ch, rest⟩
      · exfalso
        have hv : finishAttempt env jsonParse
            (Except.ok (⟨some []⟩ : ChatResponse)) =
            Except.error typeErrorChoiceZeroUndefined := rfl
        rw [hv] at hmc
        injection hmc with h3
        exact absurd h3 (by decide)
      · exact ⟨ch, rest, rfl⟩

/-- C10 witness: a served response with no choices array surfaces the raw
TypeError. -/
theorem C10_unguarded_choices_witness :
    (initializeOpenAI envW none).isSome = true ∧
    (attemptRequests envW transportNoChoices "call").1 = Except.ok ⟨none⟩ ∧
    (getAIAnalysis envW none transportNoChoices parseStub "call").1 =
      Except.error typeErrorChoicesUndefined ∧
    typeErrorChoicesUndefined.isTypeError = true := by
  have h := C10_unguarded_choices_type_error envW none transportNoChoices parseStub
    "call" ⟨none⟩ rfl rfl
  exact ⟨rfl, rfl, (h.1 rfl).1, (h.1 rfl).2⟩
